import Mathlib

/-!
Shallow embedding of the tender-management data model and its status
operations (models.py, admin.py, views.py, forms.py, and the management
commands fix_slugs.py and seed_data.py of `main_application`).

Conventions of the embedding:
* primary keys and foreign keys are `Nat` (the UUID / autoincrement values);
* `DateTimeField` / `DateField` values are `Nat` instants; nullable ones are
  `Option Nat`;
* `DecimalField` money values are `Int` numbers of hundredths (cents);
  nullable ones are `Option Int`;
* `CharField` with a closed `choices` list used as a lifecycle status is an
  inductive enumeration; other character/text columns are `String`;
* a Django queryset selected in the admin is a `List` of records, and
  `queryset.update(...)` is a `List.map` of the corresponding record update.
-/

/-- Tender.STATUS_CHOICES from models.py. -/
inductive TenderStatus where
  | draft
  | published
  | ongoing
  | closed
  | awarded
  | cancelled
deriving DecidableEq, Repr

/-- Bid.STATUS_CHOICES from models.py. -/
inductive BidStatus where
  | draft
  | submitted
  | under_review
  | shortlisted
  | rejected
  | awarded
  | withdrawn
deriving DecidableEq, Repr

/-- Contract.STATUS_CHOICES from models.py. -/
inductive ContractStatus where
  | draft
  | active
  | suspended
  | completed
  | terminated
deriving DecidableEq, Repr

/-- Milestone.STATUS_CHOICES from models.py. -/
inductive MilestoneStatus where
  | pending
  | in_progress
  | completed
  | verified
  | paid
  | delayed
deriving DecidableEq, Repr, BEq

/-! ## django.utils.text.slugify, for ASCII input

The model `save` methods call `django.utils.text.slugify`, which (for ASCII
text) lower-cases the string, deletes every character that is not a word
character, whitespace or a hyphen, replaces each run of hyphens/whitespace
by a single hyphen, and strips leading/trailing hyphens and underscores. -/

/-- Lower-case an ASCII letter, the per-character effect of `str.lower()`. -/
def asciiLowerChar (c : Char) : Char :=
  if 'A' ≤ c && c ≤ 'Z' then Char.ofNat (c.toNat + 32) else c

/-- The effect of Python `str.lower()` on an ASCII string. -/
def asciiLower (s : String) : String :=
  String.mk (s.data.map asciiLowerChar)

/-- Word characters of the regex class `\w` after lower-casing (ASCII). -/
def isWordChar (c : Char) : Bool :=
  ('a' ≤ c && c ≤ 'z') || ('0' ≤ c && c ≤ '9') || c = '_'

/-- Whitespace or hyphen: the regex class `[-\s]` used by slugify. -/
def isDashSpace (c : Char) : Bool :=
  c = ' ' || c = '\t' || c = '\n' || c = '\r' || c = '-'

/-- Characters kept by slugify's deletion pass `re.sub(r"[^\w\s-]", "", _)`. -/
def slugKeep (c : Char) : Bool :=
  isWordChar c || isDashSpace c

/-- One step of the run-collapsing pass: the accumulator carries the output
so far (reversed) and whether we are inside a `[-\s]+` run. -/
def collapseStep (acc : List Char × Bool) (c : Char) : List Char × Bool :=
  if isDashSpace c then
    if acc.2 then acc else ('-' :: acc.1, true)
  else
    (c :: acc.1, false)

/-- The pass `re.sub(r"[-\s]+", "-", _)`: each maximal run of hyphens and
whitespace becomes a single hyphen. -/
def collapseDashRuns (l : List Char) : List Char :=
  ((l.foldl collapseStep ([], false)).1).reverse

/-- Characters removed from both ends by the final `.strip("-_")`. -/
def isStripChar (c : Char) : Bool :=
  c = '-' || c = '_'

/-- Python `str.strip("-_")` on a character list. -/
def stripDashUnderscore (l : List Char) : List Char :=
  ((l.dropWhile isStripChar).reverse.dropWhile isStripChar).reverse

/-- django.utils.text.slugify restricted to ASCII input (the NFKD/ASCII
transliteration step is the identity there). -/
def slugify (s : String) : String :=
  String.mk (stripDashUnderscore (collapseDashRuns
    ((s.data.map asciiLowerChar).filter slugKeep)))

/-- A string is URL-safe when every character matches SlugField's validation
class `[-a-zA-Z0-9_]`. -/
def urlSafeChar (c : Char) : Bool :=
  ('a' ≤ c && c ≤ 'z') || ('A' ≤ c && c ≤ 'Z') || ('0' ≤ c && c ≤ '9')
    || c = '-' || c = '_'

/-- A URL-safe identifier: all characters pass `urlSafeChar`. -/
def urlSafe (s : String) : Bool :=
  s.data.all urlSafeChar

/-! ## Entity records (models.py) -/

/-- Organization model (models.py). -/
structure Organization where
  id : Nat
  name : String
  slug : String
  organization_type : String
  registration_number : String
  tax_id : String
  email : String
  phone : String
  website : String
  address : String
  city : String
  country : String
  logo : String
  is_verified : Bool
  created_at : Nat
  updated_at : Nat
deriving DecidableEq, Repr

/-- TenderCategory model (models.py); `parent` is a nullable self reference. -/
structure TenderCategory where
  id : Nat
  name : String
  slug : String
  description : String
  icon : String
  parent : Option Nat
deriving DecidableEq, Repr

/-- Tender model (models.py). -/
structure Tender where
  id : Nat
  tender_number : String
  slug : String
  title : String
  organization : Nat
  category : Option Nat
  description : String
  detailed_requirements : String
  status : TenderStatus
  procurement_method : String
  estimated_value : Int
  currency : String
  bid_security_amount : Option Int
  publication_date : Nat
  submission_deadline : Nat
  opening_date : Nat
  expected_award_date : Option Nat
  contract_duration_days : Option Nat
  project_location : String
  project_city : String
  project_country : String
  eligible_countries : String
  minimum_experience_years : Nat
  minimum_turnover : Option Int
  requires_prequalification : Bool
  contact_person : String
  contact_email : String
  contact_phone : String
  views_count : Nat
  is_featured : Bool
  created_by : Option Nat
  created_at : Nat
  updated_at : Nat
deriving DecidableEq, Repr

/-- Vendor model (models.py); `categories` is the many-to-many id set. -/
structure Vendor where
  id : Nat
  user : Nat
  company_name : String
  slug : String
  business_type : String
  registration_number : String
  tax_id : String
  email : String
  phone : String
  website : String
  address : String
  city : String
  country : String
  postal_code : String
  year_established : Nat
  number_of_employees : Nat
  annual_turnover : Int
  categories : List Nat
  service_areas : String
  is_verified : Bool
  is_blacklisted : Bool
  verification_documents : String
  rating : Int
  total_reviews : Nat
  created_at : Nat
  updated_at : Nat
deriving DecidableEq, Repr

/-- Bid model (models.py). -/
structure Bid where
  id : Nat
  bid_number : String
  slug : String
  tender : Nat
  vendor : Nat
  bid_amount : Int
  currency : String
  technical_proposal : String
  financial_proposal : String
  delivery_timeline_days : Nat
  bid_security_reference : String
  bid_security_amount : Option Int
  status : BidStatus
  technical_score : Option Int
  financial_score : Option Int
  total_score : Option Int
  evaluator_comments : String
  submitted_at : Option Nat
  reviewed_at : Option Nat
  created_at : Nat
  updated_at : Nat
deriving DecidableEq, Repr

/-- Contract model (models.py). -/
structure Contract where
  id : Nat
  contract_number : String
  slug : String
  tender : Nat
  winning_bid : Nat
  vendor : Nat
  contract_value : Int
  currency : String
  start_date : Nat
  end_date : Nat
  duration_days : Nat
  status : ContractStatus
  terms_and_conditions : String
  performance_bond_amount : Option Int
  retention_percentage : Int
  signed_contract : String
  signed_by_organization : Bool
  signed_by_vendor : Bool
  created_at : Nat
  updated_at : Nat
deriving DecidableEq, Repr

/-- Milestone model (models.py). -/
structure Milestone where
  id : Nat
  contract : Nat
  title : String
  slug : String
  description : String
  sequence_number : Nat
  deliverables : String
  amount : Int
  percentage_of_total : Int
  due_date : Nat
  completion_date : Option Nat
  payment_date : Option Nat
  status : MilestoneStatus
  verification_document : String
  payment_receipt : String
  created_at : Nat
  updated_at : Nat
deriving DecidableEq, Repr

/-! ## save methods with slug generation (models.py)

Every `save` computes the slug only when it is still empty (`if not
self.slug`), so a non-empty slug is never recomputed. -/

/-- Organization.save: `if not self.slug: self.slug = slugify(self.name)`. -/
def orgSave (o : Organization) : Organization :=
  if o.slug = "" then { o with slug := slugify o.name } else o

/-- TenderCategory.save: slug from the category name when empty. -/
def categorySave (c : TenderCategory) : TenderCategory :=
  if c.slug = "" then { c with slug := slugify c.name } else c

/-- Vendor.save: slug from the company name when empty. -/
def vendorSave (v : Vendor) : Vendor :=
  if v.slug = "" then { v with slug := slugify v.company_name } else v

/-- The slug Tender.save computes: `slugify(self.title)` followed by a hyphen
and `self.tender_number.lower()` — the tender number is lower-cased but NOT
passed through slugify. -/
def tenderSlug (title tender_number : String) : String :=
  slugify title ++ "-" ++ asciiLower tender_number

/-- Tender.save: slug from title and tender number when empty. -/
def tenderSave (t : Tender) : Tender :=
  if t.slug = "" then { t with slug := tenderSlug t.title t.tender_number } else t

/-- Contract.save: `slugify(f"{self.contract_number}-{self.vendor.company_name}")`;
the vendor's company name is the joined foreign-key value, passed in here. -/
def contractSave (vendorName : String) (c : Contract) : Contract :=
  if c.slug = "" then
    { c with slug := slugify (c.contract_number ++ "-" ++ vendorName) }
  else c

/-- Bid.save: `slugify(f"{vendor.company_name}-{tender.tender_number}-{bid_number}")`;
the two joined foreign-key values are passed in. -/
def bidSave (vendorName tenderNumber : String) (b : Bid) : Bid :=
  if b.slug = "" then
    { b with slug := slugify (vendorName ++ "-" ++ tenderNumber ++ "-" ++ b.bid_number) }
  else b

/-- The repair in management/commands/fix_slugs.py: replace every "/" in a
tender slug by "-". -/
def fixSlug (s : String) : String :=
  String.mk (s.data.map (fun c => if c = '/' then '-' else c))

/-! ## Admin bulk actions (admin.py)

Each admin action receives the selected queryset and calls
`queryset.update(...)`: a direct bulk column write with no predecessor-state
validation and no touch of any other column or related table. The selected
queryset is modelled as a `List` of records and `update` as a `List.map`. -/

namespace TenderAdmin

/-- The full admin state the tender actions can reach: all tenders together
with the related bid and contract tables. -/
structure AdminState where
  tenders : List Tender
  bids : List Bid
  contracts : List Contract
deriving Repr

/-- `queryset.update(status=s)` over the tenders whose id is selected. -/
def updateStatus (sel : List Nat) (s : TenderStatus) (st : AdminState) : AdminState :=
  { st with tenders := st.tenders.map (fun t => if t.id ∈ sel then { t with status := s } else t) }

/-- TenderAdmin.mark_as_published: `queryset.update(status='published')`. -/
def mark_as_published (sel : List Nat) (st : AdminState) : AdminState :=
  updateStatus sel TenderStatus.published st

/-- TenderAdmin.mark_as_closed: `queryset.update(status='closed')`. -/
def mark_as_closed (sel : List Nat) (st : AdminState) : AdminState :=
  updateStatus sel TenderStatus.closed st

/-- TenderAdmin.mark_as_cancelled: `queryset.update(status='cancelled')`. -/
def mark_as_cancelled (sel : List Nat) (st : AdminState) : AdminState :=
  updateStatus sel TenderStatus.cancelled st

end TenderAdmin

namespace BidAdmin

/-- BidAdmin.mark_as_submitted:
`queryset.update(status='submitted', submitted_at=timezone.now())`. -/
def mark_as_submitted (now : Nat) (qs : List Bid) : List Bid :=
  qs.map (fun b => { b with status := BidStatus.submitted, submitted_at := some now })

/-- BidAdmin.mark_as_under_review: `queryset.update(status='under_review')`. -/
def mark_as_under_review (qs : List Bid) : List Bid :=
  qs.map (fun b => { b with status := BidStatus.under_review })

/-- BidAdmin.mark_as_shortlisted: `queryset.update(status='shortlisted')`. -/
def mark_as_shortlisted (qs : List Bid) : List Bid :=
  qs.map (fun b => { b with status := BidStatus.shortlisted })

/-- BidAdmin.mark_as_rejected: `queryset.update(status='rejected')`. -/
def mark_as_rejected (qs : List Bid) : List Bid :=
  qs.map (fun b => { b with status := BidStatus.rejected })

end BidAdmin

namespace MilestoneAdmin

/-- MilestoneAdmin.mark_as_completed:
`queryset.update(status='completed', completion_date=timezone.now().date())`. -/
def mark_as_completed (today : Nat) (qs : List Milestone) : List Milestone :=
  qs.map (fun m => { m with status := MilestoneStatus.completed, completion_date := some today })

/-- MilestoneAdmin.mark_as_verified: `queryset.update(status='verified')`. -/
def mark_as_verified (qs : List Milestone) : List Milestone :=
  qs.map (fun m => { m with status := MilestoneStatus.verified })

/-- MilestoneAdmin.mark_as_paid:
`queryset.update(status='paid', payment_date=timezone.now().date())`. -/
def mark_as_paid (today : Nat) (qs : List Milestone) : List Milestone :=
  qs.map (fun m => { m with status := MilestoneStatus.paid, payment_date := some today })

end MilestoneAdmin

namespace ContractAdmin

/-- The aggregate `milestones.aggregate(Sum('amount'))['amount__sum']`:
Django returns NULL (None) over an empty row set, the sum otherwise. -/
def aggregateAmountSum (ms : List Milestone) : Option Int :=
  if ms.isEmpty then none else some ((ms.map (fun m => m.amount)).sum)

/-- ContractAdmin.milestone_summary over the contract's milestone set:
total count, count with status 'paid' (displayed as "Completed"), and the
amount sum with the NULL aggregate replaced by 0 (`... or 0`). -/
def milestone_summary (ms : List Milestone) : Nat × Nat × Int :=
  (ms.length,
   (ms.filter (fun m => m.status == MilestoneStatus.paid)).length,
   (aggregateAmountSum ms).getD 0)

end ContractAdmin

/-! ## Bid submission (views.py submit_bid, forms.py BidForm) -/

/-- The fields BidForm exposes to the submitter. forms.py excludes id, slug,
status, technical_score, financial_score, total_score, evaluator_comments,
submitted_at, reviewed_at, created_at and updated_at; the form's tender and
vendor fields are overwritten by the view before saving. -/
structure BidFormData where
  bid_number : String
  bid_amount : Int
  currency : String
  technical_proposal : String
  financial_proposal : String
  delivery_timeline_days : Nat
  bid_security_reference : String
  bid_security_amount : Option Int
deriving DecidableEq, Repr

/-- The rejection messages submit_bid can answer with. -/
inductive SubmitError where
  | tenderNotPublished
  | alreadySubmitted
  | deadlinePassed
deriving DecidableEq, Repr

/-- The bid record the view builds before calling save: the form fields,
the tender and vendor forced by the view (`bid.tender = tender`,
`bid.vendor = vendor`), `bid.status = 'submitted'`,
`bid.submitted_at = timezone.now()`, and every excluded column at its model
default (empty slug, NULL scores, NULL reviewed_at). -/
def newBidFromForm (tender : Tender) (vendorId : Nat) (now newId : Nat)
    (fd : BidFormData) : Bid :=
  { id := newId
    bid_number := fd.bid_number
    slug := ""
    tender := tender.id
    vendor := vendorId
    bid_amount := fd.bid_amount
    currency := fd.currency
    technical_proposal := fd.technical_proposal
    financial_proposal := fd.financial_proposal
    delivery_timeline_days := fd.delivery_timeline_days
    bid_security_reference := fd.bid_security_reference
    bid_security_amount := fd.bid_security_amount
    status := BidStatus.submitted
    technical_score := none
    financial_score := none
    total_score := none
    evaluator_comments := ""
    submitted_at := some now
    reviewed_at := none
    created_at := now
    updated_at := now }

/-- views.py submit_bid on the POST path with valid form data: the tender
must have been fetched with status='published' (get_object_or_404), a second
bid for the same (tender, vendor) pair is rejected, a submission after the
deadline is rejected, and otherwise a bid is stored with status 'submitted'
and submitted_at set to the current time. Returns the resulting bid table
and the error, if any; the table is returned unchanged on every error. -/
def submit_bid (tender : Tender) (vendorId : Nat) (vendorName : String)
    (now : Nat) (newId : Nat) (db : List Bid) (fd : BidFormData) :
    List Bid × Option SubmitError :=
  if tender.status = TenderStatus.published then
    if db.any (fun b => b.tender == tender.id && b.vendor == vendorId) then
      (db, some SubmitError.alreadySubmitted)
    else if tender.submission_deadline < now then
      (db, some SubmitError.deadlinePassed)
    else
      (bidSave vendorName tender.tender_number
        (newBidFromForm tender vendorId now newId fd) :: db, none)
  else
    (db, some SubmitError.tenderNotPublished)

/-- The storage-layer unique constraint `unique_together = ['tender', 'vendor']`
on Bid (models.py): an insert of a duplicate pair is rejected outright. -/
def bidInsertUnique (db : List Bid) (b : Bid) : Option (List Bid) :=
  if db.any (fun x => x.tender == b.tender && x.vendor == b.vendor) then none
  else some (b :: db)

/-! ## Milestone generation (management/commands/seed_data.py) -/

namespace SeedData

/-- Rounding to the nearest integer with ties to even, the rounding mode of
Python's round(). Used on values scaled to hundredths. -/
def roundHalfEven (num den : Nat) : Nat :=
  if 2 * (num % den) < den then num / den
  else if den < 2 * (num % den) then num / den + 1
  else if (num / den) % 2 = 0 then num / den else num / den + 1

/-- The per-milestone share `round(100 / num_milestones, 2)` from
Command.create_milestones, expressed in hundredths of a percent. -/
def milestonePercent (num_milestones : Nat) : Nat :=
  roundHalfEven 10000 num_milestones

/-- create_milestones assigns the same even-split percentage to each of the
contract's N milestones: the list of generated percentage_of_total values
(in hundredths of a percent). -/
def milestonePercentages (num_milestones : Nat) : List Nat :=
  List.replicate num_milestones (milestonePercent num_milestones)

end SeedData

/-! ## Frame predicates -/

/-- Two bids agree on every column other than status. -/
def bidSameExceptStatus (a b : Bid) : Prop :=
  a.id = b.id ∧ a.bid_number = b.bid_number ∧ a.slug = b.slug ∧
  a.tender = b.tender ∧ a.vendor = b.vendor ∧ a.bid_amount = b.bid_amount ∧
  a.currency = b.currency ∧ a.technical_proposal = b.technical_proposal ∧
  a.financial_proposal = b.financial_proposal ∧
  a.delivery_timeline_days = b.delivery_timeline_days ∧
  a.bid_security_reference = b.bid_security_reference ∧
  a.bid_security_amount = b.bid_security_amount ∧
  a.technical_score = b.technical_score ∧
  a.financial_score = b.financial_score ∧ a.total_score = b.total_score ∧
  a.evaluator_comments = b.evaluator_comments ∧
  a.submitted_at = b.submitted_at ∧ a.reviewed_at = b.reviewed_at ∧
  a.created_at = b.created_at ∧ a.updated_at = b.updated_at

/-- Two tenders agree on every column other than status. -/
def tenderSameExceptStatus (a b : Tender) : Prop :=
  a.id = b.id ∧ a.tender_number = b.tender_number ∧ a.slug = b.slug ∧
  a.title = b.title ∧ a.organization = b.organization ∧
  a.category = b.category ∧ a.description = b.description ∧
  a.detailed_requirements = b.detailed_requirements ∧
  a.procurement_method = b.procurement_method ∧
  a.estimated_value = b.estimated_value ∧ a.currency = b.currency ∧
  a.bid_security_amount = b.bid_security_amount ∧
  a.publication_date = b.publication_date ∧
  a.submission_deadline = b.submission_deadline ∧
  a.opening_date = b.opening_date ∧
  a.expected_award_date = b.expected_award_date ∧
  a.contract_duration_days = b.contract_duration_days ∧
  a.project_location = b.project_location ∧
  a.project_city = b.project_city ∧ a.project_country = b.project_country ∧
  a.eligible_countries = b.eligible_countries ∧
  a.minimum_experience_years = b.minimum_experience_years ∧
  a.minimum_turnover = b.minimum_turnover ∧
  a.requires_prequalification = b.requires_prequalification ∧
  a.contact_person = b.contact_person ∧
  a.contact_email = b.contact_email ∧ a.contact_phone = b.contact_phone ∧
  a.views_count = b.views_count ∧ a.is_featured = b.is_featured ∧
  a.created_by = b.created_by ∧ a.created_at = b.created_at ∧
  a.updated_at = b.updated_at

/-- Two milestones agree on every column other than status, completion_date
and payment_date. -/
def milestoneSameExceptStatusAndDates (a b : Milestone) : Prop :=
  a.id = b.id ∧ a.contract = b.contract ∧ a.title = b.title ∧
  a.slug = b.slug ∧ a.description = b.description ∧
  a.sequence_number = b.sequence_number ∧ a.deliverables = b.deliverables ∧
  a.amount = b.amount ∧ a.percentage_of_total = b.percentage_of_total ∧
  a.due_date = b.due_date ∧
  a.verification_document = b.verification_document ∧
  a.payment_receipt = b.payment_receipt ∧
  a.created_at = b.created_at ∧ a.updated_at = b.updated_at

/-- A bulk `queryset.update` is a map: relate each selected row to its
updated image pointwise. -/
theorem list_forall2_map {α β : Type} (r : α → β → Prop) (f : α → β)
    (h : ∀ a, r a (f a)) : ∀ l : List α, List.Forall₂ r l (l.map f)
  | [] => List.Forall₂.nil
  | a :: t => List.Forall₂.cons (h a) (list_forall2_map r f h t)

/-! ## Concrete records used to instantiate the theorems -/

/-- A published tender, with a tender number in the slash format the seed
data uses and a submission deadline at instant 100. -/
def sampleTender : Tender :=
  { id := 1
    tender_number := "KRA/RD/2025/001"
    slug := "road-maintenance-kra-rd-2025-001"
    title := "Road Maintenance"
    organization := 11
    category := some 3
    description := "Periodic road maintenance"
    detailed_requirements := "As per bill of quantities"
    status := TenderStatus.published
    procurement_method := "open"
    estimated_value := 250000000000
    currency := "KES"
    bid_security_amount := some 100000000
    publication_date := 10
    submission_deadline := 100
    opening_date := 110
    expected_award_date := some 150
    contract_duration_days := some 365
    project_location := "Nairobi West"
    project_city := "Nairobi"
    project_country := "Kenya"
    eligible_countries := "KE,UG,TZ"
    minimum_experience_years := 5
    minimum_turnover := some 5000000000
    requires_prequalification := false
    contact_person := "Procurement Office"
    contact_email := "procurement@example.org"
    contact_phone := "+254700000000"
    views_count := 0
    is_featured := false
    created_by := some 2
    created_at := 5
    updated_at := 5 }

/-- The sample tender before any save: empty slug. -/
def sampleTenderNoSlug : Tender :=
  { sampleTender with slug := "" }

/-- A bid already stored for (tender 1, vendor 7). -/
def sampleBid : Bid :=
  { id := 21
    bid_number := "BID-KRA-001"
    slug := "acme-construction-kra-rd-2025-001-bid-kra-001"
    tender := 1
    vendor := 7
    bid_amount := 240000000000
    currency := "KES"
    technical_proposal := "Full technical proposal"
    financial_proposal := "Full financial proposal"
    delivery_timeline_days := 300
    bid_security_reference := "BS-001"
    bid_security_amount := some 100000000
    status := BidStatus.submitted
    technical_score := none
    financial_score := none
    total_score := none
    evaluator_comments := ""
    submitted_at := some 40
    reviewed_at := none
    created_at := 40
    updated_at := 40 }

/-- Form data for a second submission attempt by the same vendor. -/
def sampleFormData : BidFormData :=
  { bid_number := "BID-KRA-002"
    bid_amount := 230000000000
    currency := "KES"
    technical_proposal := "Second technical proposal"
    financial_proposal := "Second financial proposal"
    delivery_timeline_days := 280
    bid_security_reference := "BS-002"
    bid_security_amount := some 100000000 }

/-- An organization whose slug is already set. -/
def sampleOrg : Organization :=
  { id := 11
    name := "Kenya Roads Authority"
    slug := "kenya-roads-authority"
    organization_type := "government"
    registration_number := "GOV-001"
    tax_id := "TAX-001"
    email := "info@example.org"
    phone := "+254711111111"
    website := ""
    address := "Barabara Plaza"
    city := "Nairobi"
    country := "Kenya"
    logo := ""
    is_verified := true
    created_at := 1
    updated_at := 1 }

/-- The sample organization before any save: empty slug. -/
def sampleOrgNoSlug : Organization :=
  { sampleOrg with slug := "" }

/-- A tender category whose slug is already set. -/
def sampleCategory : TenderCategory :=
  { id := 3
    name := "Civil Works"
    slug := "civil-works"
    description := "Construction and civil works"
    icon := "fa-building"
    parent := none }

/-- A vendor whose slug is already set. -/
def sampleVendor : Vendor :=
  { id := 7
    user := 70
    company_name := "Acme Construction"
    slug := "acme-construction"
    business_type := "llc"
    registration_number := "REG-007"
    tax_id := "TAX-007"
    email := "bids@example.com"
    phone := "+254722222222"
    website := ""
    address := "Industrial Area"
    city := "Nairobi"
    country := "Kenya"
    postal_code := "00100"
    year_established := 2005
    number_of_employees := 120
    annual_turnover := 80000000000
    categories := [3]
    service_areas := "Kenya, Uganda"
    is_verified := true
    is_blacklisted := false
    verification_documents := ""
    rating := 420
    total_reviews := 12
    created_at := 1
    updated_at := 1 }

/-- A contract whose slug is already set. -/
def sampleContract : Contract :=
  { id := 31
    contract_number := "CNT-2025-0001"
    slug := "cnt-2025-0001-acme-construction"
    tender := 1
    winning_bid := 21
    vendor := 7
    contract_value := 240000000000
    currency := "KES"
    start_date := 200
    end_date := 565
    duration_days := 365
    status := ContractStatus.active
    terms_and_conditions := "Standard terms"
    performance_bond_amount := some 24000000000
    retention_percentage := 1000
    signed_contract := ""
    signed_by_organization := true
    signed_by_vendor := true
    created_at := 180
    updated_at := 180 }

/-! ## Claim theorems -/

/-- C1: for every existing Bid with a given (tender, vendor) pair, an
attempt to submit a second Bid for the same pair is rejected — the view
answers "already submitted" and returns the bid table unchanged, so the
first Bid's record is untouched — and the storage-layer unique constraint
likewise refuses the duplicate row. -/
theorem c1_duplicate_bid_rejected (t : Tender) (vId now newId : Nat)
    (vName : String) (db : List Bid) (fd : BidFormData) (prior bNew : Bid)
    (hpub : t.status = TenderStatus.published)
    (hmem : prior ∈ db) (hpt : prior.tender = t.id) (hpv : prior.vendor = vId)
    (hbt : bNew.tender = t.id) (hbv : bNew.vendor = vId) :
    submit_bid t vId vName now newId db fd = (db, some SubmitError.alreadySubmitted) ∧
    prior ∈ (submit_bid t vId vName now newId db fd).1 ∧
    bidInsertUnique db bNew = none := by
  have hany : db.any (fun b => b.tender == t.id && b.vendor == vId) = true :=
    List.any_eq_true.mpr ⟨prior, hmem, by simp [hpt, hpv]⟩
  have hmain : submit_bid t vId vName now newId db fd
      = (db, some SubmitError.alreadySubmitted) := by
    simp [submit_bid, hpub, hany]
  exact ⟨hmain, by rw [hmain]; exact hmem, by simp [bidInsertUnique, hbt, hbv, hany]⟩

/-- Witness for C1 at a concrete published tender, an existing bid for
(tender 1, vendor 7) and a second submission attempt by vendor 7. -/
theorem c1_duplicate_bid_rejected_witness :
    submit_bid sampleTender 7 "Acme Construction" 50 22 [sampleBid] sampleFormData
      = ([sampleBid], some SubmitError.alreadySubmitted) ∧
    sampleBid ∈ (submit_bid sampleTender 7 "Acme Construction" 50 22 [sampleBid] sampleFormData).1 ∧
    bidInsertUnique [sampleBid] sampleBid = none :=
  c1_duplicate_bid_rejected sampleTender 7 50 22 "Acme Construction"
    [sampleBid] sampleFormData sampleBid sampleBid rfl (List.Mem.head _)
    rfl rfl rfl rfl

/-- C2: the bulk mark-as-submitted action sets every selected bid, whatever
its starting status, to status submitted with a non-null submitted_at, while
mark-as-under-review, mark-as-shortlisted and mark-as-rejected only change
the status and leave submitted_at (and reviewed_at) untouched: no transition
other than the one to submitted writes a timestamp automatically. -/
theorem c2_submitted_stamps_timestamp (now : Nat) (qs : List Bid) :
    List.Forall₂ (fun old new => new.status = BidStatus.submitted ∧
        new.submitted_at = some now ∧ new.submitted_at ≠ none ∧
        new.reviewed_at = old.reviewed_at)
      qs (BidAdmin.mark_as_submitted now qs) ∧
    List.Forall₂ (fun old new => new.status = BidStatus.under_review ∧
        new.submitted_at = old.submitted_at ∧ new.reviewed_at = old.reviewed_at)
      qs (BidAdmin.mark_as_under_review qs) ∧
    List.Forall₂ (fun old new => new.status = BidStatus.shortlisted ∧
        new.submitted_at = old.submitted_at ∧ new.reviewed_at = old.reviewed_at)
      qs (BidAdmin.mark_as_shortlisted qs) ∧
    List.Forall₂ (fun old new => new.status = BidStatus.rejected ∧
        new.submitted_at = old.submitted_at ∧ new.reviewed_at = old.reviewed_at)
      qs (BidAdmin.mark_as_rejected qs) := by
  refine ⟨?_, ?_, ?_, ?_⟩
  · exact list_forall2_map _ _ (fun b => ⟨rfl, rfl, Option.some_ne_none now, rfl⟩) qs
  · exact list_forall2_map _ _ (fun b => ⟨rfl, rfl, rfl⟩) qs
  · exact list_forall2_map _ _ (fun b => ⟨rfl, rfl, rfl⟩) qs
  · exact list_forall2_map _ _ (fun b => ⟨rfl, rfl, rfl⟩) qs

/-- C3: the bulk mark-as-under-review action sets every selected bid's
status to under_review and changes no other column of any selected bid. -/
theorem c3_under_review_bulk_frame (qs : List Bid) :
    List.Forall₂ (fun old new => new.status = BidStatus.under_review ∧
        bidSameExceptStatus old new)
      qs (BidAdmin.mark_as_under_review qs) :=
  list_forall2_map _ _ (fun b => ⟨rfl, by simp [bidSameExceptStatus]⟩) qs

/-- C6: the milestone summary of a contract with zero milestones reads
count 0, paid count 0 and total amount 0 — the NULL aggregate is replaced
by 0 rather than propagated or raised. -/
theorem c6_milestone_summary_empty :
    ContractAdmin.milestone_summary [] = (0, 0, 0) := rfl

/-- C9: the bulk mark-as-completed action sets status completed and stamps
completion_date with the current date, mark-as-paid sets status paid and
stamps payment_date with the current date, and mark-as-verified stamps no
date at all; no other milestone column is changed by any of the three. -/
theorem c9_milestone_date_stamps (today : Nat) (qs : List Milestone) :
    List.Forall₂ (fun old new => new.status = MilestoneStatus.completed ∧
        new.completion_date = some today ∧ new.payment_date = old.payment_date ∧
        milestoneSameExceptStatusAndDates old new)
      qs (MilestoneAdmin.mark_as_completed today qs) ∧
    List.Forall₂ (fun old new => new.status = MilestoneStatus.paid ∧
        new.payment_date = some today ∧
        new.completion_date = old.completion_date ∧
        milestoneSameExceptStatusAndDates old new)
      qs (MilestoneAdmin.mark_as_paid today qs) ∧
    List.Forall₂ (fun old new => new.status = MilestoneStatus.verified ∧
        new.completion_date = old.completion_date ∧
        new.payment_date = old.payment_date ∧
        milestoneSameExceptStatusAndDates old new)
      qs (MilestoneAdmin.mark_as_verified qs) := by
  refine ⟨?_, ?_, ?_⟩
  · exact list_forall2_map _ _
      (fun m => ⟨rfl, rfl, rfl, by simp [milestoneSameExceptStatusAndDates]⟩) qs
  · exact list_forall2_map _ _
      (fun m => ⟨rfl, rfl, rfl, by simp [milestoneSameExceptStatusAndDates]⟩) qs
  · exact list_forall2_map _ _
      (fun m => ⟨rfl, rfl, rfl, by simp [milestoneSameExceptStatusAndDates]⟩) qs

/-- C5 (divergence exhibit): Tender.save appends the lower-cased tender
number to the slugified title without slugifying it, so a tender number in
the seed data's slash format produces a slug that is not URL-safe; the
fix_slugs management command exists to repair exactly this, and its
replacement makes the example slug URL-safe again. The slugified title part
itself is URL-safe. -/
theorem c5_tender_slug_not_urlsafe :
    tenderSlug "Road Maintenance" "KRA/RD/2025/001"
      = "road-maintenance-kra/rd/2025/001" ∧
    urlSafe (tenderSlug "Road Maintenance" "KRA/RD/2025/001") = false ∧
    urlSafe (fixSlug (tenderSlug "Road Maintenance" "KRA/RD/2025/001")) = true ∧
    urlSafe (slugify "Road Maintenance") = true :=
  ⟨rfl, rfl, rfl, rfl⟩

/-- The nearest-rounding of 10000/n is within half of n hundredths of
10000/n, so n copies of it stay within n half-hundredths of 10000. -/
theorem seed_round_sum_bound (n : Nat) (h : 0 < n) :
    2 * (n * SeedData.milestonePercent n) ≤ 20000 + n ∧
    20000 ≤ 2 * (n * SeedData.milestonePercent n) + n := by
  have hdm : n * (10000 / n) + 10000 % n = 10000 := Nat.div_add_mod 10000 n
  have hr : 10000 % n < n := Nat.mod_lt _ h
  unfold SeedData.milestonePercent SeedData.roundHalfEven
  generalize hrg : 10000 % n = r at hdm hr ⊢
  generalize hqg : 10000 / n = q at hdm ⊢
  split_ifs with h1 h2 h3
  · generalize n * q = t at hdm ⊢
    omega
  · rw [Nat.mul_succ]
    generalize n * q = t at hdm ⊢
    omega
  · generalize n * q = t at hdm ⊢
    omega
  · rw [Nat.mul_succ]
    generalize n * q = t at hdm ⊢
    omega

/-- C7: for every contract whose N milestones are generated by the even
split percentage round(100/N, 2), the percentages (in hundredths of a
percent) sum to 10000 within half a hundredth per milestone, for every
N at least 1. -/
theorem c7_even_split_sums_to_100 (n : Nat) (h : 1 ≤ n) :
    2 * (SeedData.milestonePercentages n).sum ≤ 20000 + n ∧
    20000 ≤ 2 * (SeedData.milestonePercentages n).sum + n := by
  have hs : (SeedData.milestonePercentages n).sum
      = n * SeedData.milestonePercent n := by
    simp [SeedData.milestonePercentages, List.sum_replicate, smul_eq_mul]
  rw [hs]
  exact seed_round_sum_bound n h

/-- Witness for C7 at three milestones: each gets 33.33 percent and the sum
99.99 is within the tolerance. -/
theorem c7_even_split_sums_to_100_witness :
    1 ≤ 3 ∧ (SeedData.milestonePercentages 3).sum = 9999 ∧
    2 * (SeedData.milestonePercentages 3).sum ≤ 20000 + 3 ∧
    20000 ≤ 2 * (SeedData.milestonePercentages 3).sum + 3 :=
  ⟨by decide, by decide, (c7_even_split_sums_to_100 3 (by decide)).1,
   (c7_even_split_sums_to_100 3 (by decide)).2⟩

/-- C8: each bulk tender status action (published, closed, cancelled) sets
every selected tender's status to the target value whatever its previous
status, changes no other tender column, leaves unselected tenders alone,
and touches no bid and no contract row. -/
theorem c8_tender_bulk_status_frame (sel : List Nat) (st : TenderAdmin.AdminState) :
    ((TenderAdmin.mark_as_published sel st).bids = st.bids ∧
     (TenderAdmin.mark_as_published sel st).contracts = st.contracts ∧
     List.Forall₂ (fun old new => tenderSameExceptStatus old new ∧
         new.status = (if old.id ∈ sel then TenderStatus.published else old.status))
       st.tenders (TenderAdmin.mark_as_published sel st).tenders) ∧
    ((TenderAdmin.mark_as_closed sel st).bids = st.bids ∧
     (TenderAdmin.mark_as_closed sel st).contracts = st.contracts ∧
     List.Forall₂ (fun old new => tenderSameExceptStatus old new ∧
         new.status = (if old.id ∈ sel then TenderStatus.closed else old.status))
       st.tenders (TenderAdmin.mark_as_closed sel st).tenders) ∧
    ((TenderAdmin.mark_as_cancelled sel st).bids = st.bids ∧
     (TenderAdmin.mark_as_cancelled sel st).contracts = st.contracts ∧
     List.Forall₂ (fun old new => tenderSameExceptStatus old new ∧
         new.status = (if old.id ∈ sel then TenderStatus.cancelled else old.status))
       st.tenders (TenderAdmin.mark_as_cancelled sel st).tenders) := by
  refine ⟨⟨rfl, rfl, ?_⟩, ⟨rfl, rfl, ?_⟩, ⟨rfl, rfl, ?_⟩⟩ <;>
    exact list_forall2_map _ _
      (fun t => by
        by_cases h : t.id ∈ sel <;> simp [h, tenderSameExceptStatus])
      st.tenders

/-- Saving an organization twice in a row is the same as saving it once. -/
theorem orgSave_idem (o : Organization) : orgSave (orgSave o) = orgSave o := by
  unfold orgSave
  by_cases h : o.slug = "" <;> simp [h]

/-- Saving a tender twice in a row is the same as saving it once. -/
theorem tenderSave_idem (t : Tender) : tenderSave (tenderSave t) = tenderSave t := by
  unfold tenderSave
  by_cases h : t.slug = "" <;> simp [h]

/-- C4: slug generation at save time is idempotent. When the slug is empty
it is computed from the source field (name for Organization, title plus
tender number for Tender); once the slug is non-empty, a further save never
recomputes or changes it, even after the source field has been modified —
for each entity type with a slug-generating save. -/
theorem c4_slug_generation_idempotent
    (o : Organization) (t : Tender) (cat : TenderCategory) (v : Vendor)
    (c : Contract) (n1 n2 n3 n4 vn : String)
    (o0 : Organization) (t0 : Tender)
    (ho : o.slug ≠ "") (ht : t.slug ≠ "") (hc : cat.slug ≠ "")
    (hv : v.slug ≠ "") (hk : c.slug ≠ "")
    (h0 : o0.slug = "") (h1 : t0.slug = "") :
    (orgSave { o with name := n1 }).slug = o.slug ∧
    (tenderSave { t with title := n2 }).slug = t.slug ∧
    (categorySave { cat with name := n3 }).slug = cat.slug ∧
    (vendorSave { v with company_name := n4 }).slug = v.slug ∧
    (contractSave vn c).slug = c.slug ∧
    (orgSave o0).slug = slugify o0.name ∧
    (tenderSave t0).slug = tenderSlug t0.title t0.tender_number ∧
    orgSave (orgSave o0) = orgSave o0 ∧
    tenderSave (tenderSave t0) = tenderSave t0 ∧
    orgSave (orgSave o) = orgSave o ∧
    tenderSave (tenderSave t) = tenderSave t := by
  refine ⟨?_, ?_, ?_, ?_, ?_, ?_, ?_, orgSave_idem o0, tenderSave_idem t0,
    orgSave_idem o, tenderSave_idem t⟩
  · simp [orgSave, ho]
  · simp [tenderSave, ht]
  · simp [categorySave, hc]
  · simp [vendorSave, hv]
  · simp [contractSave, hk]
  · simp [orgSave, h0]
  · simp [tenderSave, h1]

/-- Witness for C4 at concrete records: renaming a saved organization does
not change its slug, and an organization saved with an empty slug gets the
slugified name. -/
theorem c4_slug_generation_idempotent_witness :
    (orgSave { sampleOrg with name := "Roads Board" }).slug = sampleOrg.slug ∧
    (tenderSave { sampleTender with title := "New Title" }).slug = sampleTender.slug ∧
    (categorySave { sampleCategory with name := "Works" }).slug = sampleCategory.slug ∧
    (vendorSave { sampleVendor with company_name := "Acme Ltd" }).slug = sampleVendor.slug ∧
    (contractSave "Acme Construction" sampleContract).slug = sampleContract.slug ∧
    (orgSave sampleOrgNoSlug).slug = slugify sampleOrgNoSlug.name ∧
    (tenderSave sampleTenderNoSlug).slug
      = tenderSlug sampleTenderNoSlug.title sampleTenderNoSlug.tender_number ∧
    orgSave (orgSave sampleOrgNoSlug) = orgSave sampleOrgNoSlug ∧
    tenderSave (tenderSave sampleTenderNoSlug) = tenderSave sampleTenderNoSlug ∧
    orgSave (orgSave sampleOrg) = orgSave sampleOrg ∧
    tenderSave (tenderSave sampleTender) = tenderSave sampleTender :=
  c4_slug_generation_idempotent sampleOrg sampleTender sampleCategory
    sampleVendor sampleContract "Roads Board" "New Title" "Works" "Acme Ltd"
    "Acme Construction" sampleOrgNoSlug sampleTenderNoSlug
    (by decide) (by decide) (by decide) (by decide) (by decide) rfl rfl

/-- C10: every bid created through the public submission view is stored
with status submitted, a non-null submitted_at, and no scores, comments or
review timestamp (the form cannot set them); and when the current time is
past the tender's submission deadline the view refuses to create a bid and
leaves the bid table unchanged. -/
theorem c10_public_submission_invariants (t u : Tender)
    (vId nowOk nowLate newId : Nat) (vName : String)
    (db dbLate : List Bid) (fd fdLate : BidFormData)
    (hpub : t.status = TenderStatus.published)
    (hnodup : db.any (fun b => b.tender == t.id && b.vendor == vId) = false)
    (hontime : ¬ t.submission_deadline < nowOk)
    (hlate : u.submission_deadline < nowLate) :
    (∃ b : Bid,
      submit_bid t vId vName nowOk newId db fd = (b :: db, none) ∧
      b.status = BidStatus.submitted ∧ b.submitted_at = some nowOk ∧
      b.submitted_at ≠ none ∧ b.technical_score = none ∧
      b.financial_score = none ∧ b.total_score = none ∧
      b.evaluator_comments = "" ∧ b.reviewed_at = none) ∧
    ((submit_bid u vId vName nowLate newId dbLate fdLate).1 = dbLate ∧
     (submit_bid u vId vName nowLate newId dbLate fdLate).2 ≠ none) := by
  constructor
  · refine ⟨bidSave vName t.tender_number (newBidFromForm t vId nowOk newId fd),
      ?_, ?_, ?_, ?_, ?_, ?_, ?_, ?_, ?_⟩
    · simp [submit_bid, hpub, hnodup, hontime]
    all_goals simp [bidSave, newBidFromForm]
  · by_cases hp : u.status = TenderStatus.published
    · by_cases hd : dbLate.any (fun b => b.tender == u.id && b.vendor == vId)
      · simp [submit_bid, hp, hd]
      · simp [submit_bid, hp, hd, hlate]
    · simp [submit_bid, hp]

/-- Witness for C10: vendor 7 submits at instant 50, before the sample
tender's deadline 100, into an empty bid table; a submission at instant 200
is past the deadline and is refused. -/
theorem c10_public_submission_invariants_witness :
    (∃ b : Bid,
      submit_bid sampleTender 7 "Acme Construction" 50 22 [] sampleFormData
        = (b :: [], none) ∧
      b.status = BidStatus.submitted ∧ b.submitted_at = some 50 ∧
      b.submitted_at ≠ none ∧ b.technical_score = none ∧
      b.financial_score = none ∧ b.total_score = none ∧
      b.evaluator_comments = "" ∧ b.reviewed_at = none) ∧
    ((submit_bid sampleTender 7 "Acme Construction" 200 23 [sampleBid] sampleFormData).1
        = [sampleBid] ∧
     (submit_bid sampleTender 7 "Acme Construction" 200 23 [sampleBid] sampleFormData).2
        ≠ none) :=
  c10_public_submission_invariants sampleTender sampleTender 7 50 200 22
    "Acme Construction" [] [sampleBid] sampleFormData sampleFormData
    rfl rfl (by decide) (by decide)
